import Mathlib

/-
Verification of the task record store (`weather_agent/db_task_store.py`) and
the forecast tool (`weather_agent/weather_tools.py`) of the
A2A_Cloud_Deployment repository.

The store is a thin wrapper around a single SQLite table
`tasks (id TEXT PRIMARY KEY, task_data TEXT NOT NULL)`.  We embed it as
explicit state passing: the durable medium is a map from file paths to
tables (association lists from id to serialized payload), and the store
object carries the path plus the connection flag (`self._conn is None`
becomes `conn_open = false`).  SQLite autocommit write-through means the
table contents always live in the durable map; the connection is only a
handle.  Exceptions raised by the Python code (sqlite3.OperationalError on
an unopenable path, pydantic ValidationError on malformed stored data)
become `Except` errors with the error kinds named by the specification.
-/

namespace A2A

/-! ## Association list primitives (the SQLite table and the filesystem) -/

/-- Lookup of the first value bound to a key in an association list.  For the
`tasks` table this is `SELECT task_data FROM tasks WHERE id = ?` followed by
`fetchone`; for the filesystem it is opening the file at a path. -/
def KV.lookup (k : String) : List (String × β) → Option β
  | [] => none
  | (a, b) :: rest => if a = k then some b else KV.lookup k rest

/-- Insert-or-replace of a key binding, modelling
`INSERT OR REPLACE INTO tasks (id, task_data) VALUES (?, ?)` (and file
creation in the filesystem map). -/
def KV.upsert (k : String) (v : β) : List (String × β) → List (String × β)
  | [] => [(k, v)]
  | (a, b) :: rest => if a = k then (k, v) :: rest else (a, b) :: KV.upsert k v rest

/-- Removal of every binding of a key, modelling
`DELETE FROM tasks WHERE id = ?`. -/
def KV.erase (k : String) : List (String × β) → List (String × β)
  | [] => []
  | (a, b) :: rest => if a = k then KV.erase k rest else (a, b) :: KV.erase k rest

theorem KV.lookup_upsert (k q : String) (v : β) (l : List (String × β)) :
    KV.lookup q (KV.upsert k v l) = if q = k then some v else KV.lookup q l := by
  induction l with
  | nil =>
    rcases eq_or_ne q k with h | h
    · subst h; simp [KV.upsert, KV.lookup]
    · simp [KV.upsert, KV.lookup, h, Ne.symm h]
  | cons hd tl ih =>
    obtain ⟨a, b⟩ := hd
    rcases eq_or_ne a k with hak | hak
    · subst hak
      rcases eq_or_ne q a with hq | hq
      · subst hq; simp [KV.upsert, KV.lookup]
      · simp [KV.upsert, KV.lookup, hq, Ne.symm hq]
    · rcases eq_or_ne a q with haq | haq
      · subst haq
        simp [KV.upsert, KV.lookup, Ne.symm hak, hak]
      · simp [KV.upsert, KV.lookup, hak, haq, ih]

theorem KV.lookup_erase (k q : String) (l : List (String × β)) :
    KV.lookup q (KV.erase k l) = if q = k then none else KV.lookup q l := by
  induction l with
  | nil => simp [KV.erase, KV.lookup]
  | cons hd tl ih =>
    obtain ⟨a, b⟩ := hd
    rcases eq_or_ne a k with hak | hak
    · subst hak
      rcases eq_or_ne q a with hq | hq
      · subst hq; simp [KV.erase, KV.lookup, ih]
      · simp [KV.erase, KV.lookup, hq, Ne.symm hq, ih]
    · rcases eq_or_ne a q with haq | haq
      · subst haq
        simp [KV.erase, KV.lookup, Ne.symm hak, hak]
      · simp [KV.erase, KV.lookup, hak, haq, ih]

theorem KV.erase_of_lookup_none (k : String) (l : List (String × β))
    (h : KV.lookup k l = none) : KV.erase k l = l := by
  induction l with
  | nil => simp [KV.erase]
  | cons hd tl ih =>
    obtain ⟨a, b⟩ := hd
    by_cases hak : a = k
    · simp [KV.lookup, hak] at h
    · simp [KV.lookup, hak] at h
      simp [KV.erase, hak, ih h]

/-! ## The task object and its wire format

The store persists `task.json()` and reads back with `Task.parse_raw`,
both supplied by the external `a2a.types.Task` (a pydantic model, outside
this repository).  We model the task with its `id` plus one further field
and give the serialization contract an executable realization: an exact
JSON printer together with a parser that is its partial inverse and fails
on anything outside the printed image. -/

structure Task where
  id : String
  status : String
deriving DecidableEq

/-- Serialization `task.json()` of the wire contract. -/
def Task.json (t : Task) : String :=
  "\x7b\"id\": \"" ++ t.id ++ "\", \"status\": \"" ++ t.status ++ "\"\x7d"

/-- Consume an expected literal from the front of the input. -/
def dropLit : List Char → List Char → Option (List Char)
  | [], s => some s
  | _ :: _, [] => none
  | p :: ps, c :: cs => if c = p then dropLit ps cs else none

/-- Scan up to the next double quote, returning the scanned prefix and the
rest of the input past the quote. -/
def takeUntilQuote : List Char → Option (List Char × List Char)
  | [] => none
  | c :: cs =>
    if c = '"' then some ([], cs)
    else
      match takeUntilQuote cs with
      | some (a, b) => some (c :: a, b)
      | none => none

/-- Deserialization `Task.parse_raw` of the wire contract: the partial
inverse of `Task.json`, returning `none` on malformed input (the pydantic
ValidationError). -/
def Task.parse_raw (s : String) : Option Task := do
  let r0 ← dropLit ("\x7b\"id\": \"".data) s.data
  let (idCs, r1) ← takeUntilQuote r0
  let r2 ← dropLit (", \"status\": \"".data) r1
  let (stCs, r3) ← takeUntilQuote r2
  let r4 ← dropLit ("\x7d".data) r3
  if r4 = [] then some ⟨String.mk idCs, String.mk stCs⟩ else none

theorem dropLit_append (p r : List Char) : dropLit p (p ++ r) = some r := by
  induction p with
  | nil => simp [dropLit]
  | cons c cs ih => simp [dropLit, ih]

theorem takeUntilQuote_append (a b : List Char) (h : '"' ∉ a) :
    takeUntilQuote (a ++ '"' :: b) = some (a, b) := by
  induction a with
  | nil => simp [takeUntilQuote]
  | cons c cs ih =>
    simp only [List.mem_cons, not_or] at h
    simp [takeUntilQuote, Ne.symm h.1, ih h.2]

theorem parse_raw_json (t : Task) (h1 : '"' ∉ t.id.data) (h2 : '"' ∉ t.status.data) :
    Task.parse_raw (Task.json t) = some t := by
  obtain ⟨tid, tst⟩ := t
  obtain ⟨tidCs⟩ := tid
  obtain ⟨tstCs⟩ := tst
  have hdata : (Task.json ⟨⟨tidCs⟩, ⟨tstCs⟩⟩).data =
      ("\x7b\"id\": \"".data) ++ (tidCs ++ '"' ::
        ((", \"status\": \"".data) ++ (tstCs ++ '"' :: ("\x7d".data)))) := by
    simp [Task.json, String.data_append]
  unfold Task.parse_raw
  rw [hdata, dropLit_append]
  simp only [Option.bind_eq_bind, Option.some_bind]
  rw [takeUntilQuote_append _ _ h1]
  simp only [Option.bind_eq_bind, Option.some_bind]
  rw [dropLit_append]
  simp only [Option.bind_eq_bind, Option.some_bind]
  rw [takeUntilQuote_append _ _ h2]
  simp only [Option.bind_eq_bind, Option.some_bind]
  simp [dropLit]

/-! ## The task record store (`DBTaskStore`)

State passing: `FS` is the durable medium (path to table of rows), the
`creatable` predicate says at which paths `sqlite3.connect` can create a new
database file (its `OperationalError` on an unopenable path is the
`storeUnavailable` error).  `Table` is the `tasks` table of one database
file.  Every operation takes and returns the filesystem together with the
store object, mirroring write-through autocommit of the `with self._conn:`
blocks in the source. -/

/-- One `tasks` table: rows `(id, task_data)`. -/
abbrev Table := List (String × String)

/-- The durable medium: database files by path. -/
abbrev FS := List (String × Table)

inductive StoreError where
  | storeUnavailable
  | deserializationError
deriving DecidableEq

structure DBTaskStore where
  db_path : String
  conn_open : Bool
deriving DecidableEq

/-- Contents of the `tasks` table of the database file at `p` (a missing
file reads as an empty table, as `CREATE TABLE IF NOT EXISTS` guarantees
the table before any query runs). -/
def tableAt (fs : FS) (p : String) : Table :=
  (KV.lookup p fs).getD []

/-- DBTaskStore.connect: `if self._conn is None: self._conn = sqlite3.connect(self.db_path); self._create_table()`.
Already open is a no-op; otherwise the database file is opened, created
empty when absent and the path is creatable, and `_create_table` runs
`CREATE TABLE IF NOT EXISTS` (which preserves an existing table).  An
uncreatable path raises `sqlite3.OperationalError`, surfaced as
`storeUnavailable`. -/
def DBTaskStore.connect (creatable : String → Bool) (fs : FS) (s : DBTaskStore) :
    Except StoreError (FS × DBTaskStore) :=
  if s.conn_open then .ok (fs, s)
  else
    match KV.lookup s.db_path fs with
    | some _ => .ok (fs, { s with conn_open := true })
    | none =>
      if creatable s.db_path then
        .ok (KV.upsert s.db_path ([] : Table) fs, { s with conn_open := true })
      else .error .storeUnavailable

/-- DBTaskStore.save: connect, then
`INSERT OR REPLACE INTO tasks (id, task_data) VALUES (?, ?)` with
`(task.id, task.json())`. -/
def DBTaskStore.save (creatable : String → Bool) (fs : FS) (s : DBTaskStore)
    (task : Task) : Except StoreError (FS × DBTaskStore) :=
  match DBTaskStore.connect creatable fs s with
  | .error e => .error e
  | .ok (fs1, s1) =>
    .ok (KV.upsert s1.db_path
          (KV.upsert task.id (Task.json task) (tableAt fs1 s1.db_path)) fs1, s1)

/-- DBTaskStore.get: connect, `SELECT task_data FROM tasks WHERE id = ?`,
`Task.parse_raw(row[0])` when a row exists else `None`.  A malformed stored
payload raises the deserialization error. -/
def DBTaskStore.get (creatable : String → Bool) (fs : FS) (s : DBTaskStore)
    (task_id : String) : Except StoreError (FS × DBTaskStore × Option Task) :=
  match DBTaskStore.connect creatable fs s with
  | .error e => .error e
  | .ok (fs1, s1) =>
    match KV.lookup task_id (tableAt fs1 s1.db_path) with
    | some raw =>
      match Task.parse_raw raw with
      | some t => .ok (fs1, s1, some t)
      | none => .error .deserializationError
    | none => .ok (fs1, s1, none)

/-- DBTaskStore.delete: connect, then `DELETE FROM tasks WHERE id = ?`. -/
def DBTaskStore.delete (creatable : String → Bool) (fs : FS) (s : DBTaskStore)
    (task_id : String) : Except StoreError (FS × DBTaskStore) :=
  match DBTaskStore.connect creatable fs s with
  | .error e => .error e
  | .ok (fs1, s1) =>
    .ok (KV.upsert s1.db_path
          (KV.erase task_id (tableAt fs1 s1.db_path)) fs1, s1)

/-- DBTaskStore.close: `if self._conn: self._conn.close(); self._conn = None`.
Only the handle changes; the durable medium is untouched (`close` does not
take or return the filesystem). -/
def DBTaskStore.close (s : DBTaskStore) : DBTaskStore :=
  if s.conn_open then { s with conn_open := false } else s

theorem connect_of_open (creatable : String → Bool) (fs : FS) (s : DBTaskStore)
    (h : s.conn_open = true) : DBTaskStore.connect creatable fs s = .ok (fs, s) := by
  simp [DBTaskStore.connect, h]

theorem connect_ok_inv (creatable : String → Bool) (fs fs1 : FS) (s s1 : DBTaskStore)
    (h : DBTaskStore.connect creatable fs s = .ok (fs1, s1)) :
    s1 = { s with conn_open := true } ∧ tableAt fs1 s.db_path = tableAt fs s.db_path := by
  unfold DBTaskStore.connect at h
  by_cases ho : s.conn_open = true
  · rw [if_pos ho] at h
    obtain ⟨rfl, rfl⟩ : fs = fs1 ∧ s = s1 := by
      constructor <;> [injection h with h2; skip] <;> simp_all
    constructor
    · cases s; simp_all
    · rfl
  · rw [if_neg ho] at h
    cases hlk : KV.lookup s.db_path fs with
    | some tbl =>
      rw [hlk] at h
      obtain ⟨rfl, rfl⟩ : fs = fs1 ∧ { s with conn_open := true } = s1 := by
        constructor <;> [injection h with h2; skip] <;> simp_all
      exact ⟨rfl, rfl⟩
    | none =>
      rw [hlk] at h
      by_cases hc : creatable s.db_path = true
      · rw [if_pos hc] at h
        obtain ⟨rfl, rfl⟩ :
            KV.upsert s.db_path ([] : Table) fs = fs1 ∧ { s with conn_open := true } = s1 := by
          constructor <;> [injection h with h2; skip] <;> simp_all
        refine ⟨rfl, ?_⟩
        simp [tableAt, KV.lookup_upsert, hlk]
      · rw [if_neg hc] at h
        cases h

theorem close_db_path (s : DBTaskStore) : (DBTaskStore.close s).db_path = s.db_path := by
  unfold DBTaskStore.close
  split <;> rfl

theorem close_conn_open (s : DBTaskStore) : (DBTaskStore.close s).conn_open = false := by
  unfold DBTaskStore.close
  split <;> simp_all

/-- Core round trip: a successful `save` leaves the store in a state from
which `get` of the saved id returns the saved task. -/
theorem get_after_save (creatable : String → Bool) (fs fs1 : FS)
    (s s1 : DBTaskStore) (t : Task)
    (hsave : DBTaskStore.save creatable fs s t = .ok (fs1, s1))
    (h1 : '"' ∉ t.id.data) (h2 : '"' ∉ t.status.data) :
    DBTaskStore.get creatable fs1 s1 t.id = .ok (fs1, s1, some t) := by
  unfold DBTaskStore.save at hsave
  cases hc : DBTaskStore.connect creatable fs s with
  | error e => rw [hc] at hsave; cases hsave
  | ok p =>
    obtain ⟨fs0, s0⟩ := p
    rw [hc] at hsave
    obtain ⟨hinv1, _⟩ := connect_ok_inv creatable fs fs0 s s0 hc
    have hopen : s0.conn_open = true := by rw [hinv1]
    injection hsave with hpair
    rw [Prod.mk.injEq] at hpair
    obtain ⟨hfs, hs⟩ := hpair
    subst hfs
    subst hs
    unfold DBTaskStore.get
    rw [connect_of_open creatable _ s0 hopen]
    simp [tableAt, KV.lookup_upsert, parse_raw_json t h1 h2]

/-! ## The forecast tool (`weather_tools.get_forecast`)

The HTTP client is an oracle mapping the requested URL to either a parsed
body or an error message (an `httpx.HTTPStatusError` or `RequestError`,
whose rendering the source interpolates into its reply).  Bodies are
modelled structurally: `properties.forecast` of the points response as an
optional string (`dict.get` returning `None` when absent), and
`properties.periods` of the forecast response as a list of periods whose
`dict.get` fields are optional strings.  `get_forecast` additionally
returns the list of URLs it requested, in order, so that the absence of
outbound traffic is expressible.  Coordinates are rationals; the range
check on Python floats is the same exact comparison. -/

inductive HttpResult (α : Type) where
  | ok (value : α)
  | httpError (message : String)

/-- Points response: `points_data.get("properties", \x7b\x7d).get("forecast")`. -/
structure PointsData where
  forecast : Option String
deriving DecidableEq

/-- One forecast period dictionary; each field is `period.get(key, default)`. -/
structure ForecastPeriod where
  name : Option String
  temperature : Option String
  temperatureUnit : Option String
  windSpeed : Option String
  windDirection : Option String
  shortForecast : Option String
  detailedForecast : Option String
deriving DecidableEq

/-- Forecast response: `forecast_data.get("properties", \x7b\x7d).get("periods", [])`. -/
structure ForecastData where
  periods : List ForecastPeriod
deriving DecidableEq

/-- The `http_client` oracle for the two GET requests the tool makes. -/
structure NWSEnv where
  points : String → HttpResult PointsData
  forecast : String → HttpResult ForecastData

/-- Python `round` half-to-even on a rational, used by the `.4f` format. -/
def roundHalfEven (q : ℚ) : ℤ :=
  let f := ⌊q⌋
  let r := q - f
  if r < 1 / 2 then f
  else if 1 / 2 < r then f + 1
  else if f % 2 = 0 then f else f + 1

/-- Zero padding of the fractional digits to width 4. -/
def padLeft4 (n : Nat) : String :=
  let s := toString n
  String.mk (List.replicate (4 - s.length) '0') ++ s

/-- Fixed-point rendering `f"\x7bx:.4f\x7d"` of a coordinate. -/
def formatCoord (q : ℚ) : String :=
  let n := roundHalfEven (q * 10000)
  let sign := if n < 0 then "-" else ""
  let m := n.natAbs
  sign ++ toString (m / 10000) ++ "." ++ padLeft4 (m % 10000)

/-- The endpoint `f"/points/\x7blatitude:.4f\x7d,\x7blongitude:.4f\x7d"`. -/
def point_endpoint (latitude longitude : ℚ) : String :=
  "/points/" ++ formatCoord latitude ++ "," ++ formatCoord longitude

/-- Rendering of one forecast period, character for character the f-string
of `format_forecast_period` (Python `.strip()` is `String.trim`). -/
def format_forecast_period (period : ForecastPeriod) : String :=
  "\n           " ++ period.name.getD "Unknown Period" ++
  ":\n             Temperature: " ++ period.temperature.getD "N/A" ++
  "°" ++ period.temperatureUnit.getD "F" ++
  "\n             Wind: " ++ period.windSpeed.getD "N/A" ++
  " " ++ period.windDirection.getD "N/A" ++
  "\n             Short Forecast: " ++ period.shortForecast.getD "N/A" ++
  "\n             Detailed Forecast: " ++
  (period.detailedForecast.getD "No detailed forecast provided.").trim ++
  "\n           "

/-- The tool body of `get_forecast`.  The second component of the result is
the list of URLs requested through `http_client`, in order.  The two `if`
tests on `forecast_url` and `periods` mirror Python falsiness (`None` or
empty string; empty list). -/
def get_forecast (env : NWSEnv) (latitude longitude : ℚ) : String × List String :=
  if ¬(-90 ≤ latitude ∧ latitude ≤ 90 ∧ -180 ≤ longitude ∧ longitude ≤ 180) then
    ("Invalid latitude or longitude provided.", [])
  else
    let pe := point_endpoint latitude longitude
    match env.points pe with
    | .httpError e => ("Unable to retrieve NWS gridpoint information: " ++ e, [pe])
    | .ok points_data =>
      match points_data.forecast with
      | none => ("Could not find the NWS forecast endpoint.", [pe])
      | some forecast_url =>
        if forecast_url = "" then ("Could not find the NWS forecast endpoint.", [pe])
        else
          match env.forecast forecast_url with
          | .httpError e =>
            ("Failed to retrieve detailed forecast data: " ++ e, [pe, forecast_url])
          | .ok forecast_data =>
            let periods := forecast_data.periods
            if periods = [] then
              ("No forecast periods found for this location.", [pe, forecast_url])
            else
              (String.intercalate "\n---\n"
                ((periods.take 5).map format_forecast_period), [pe, forecast_url])

/-- Shape of the state after a successful `save`: the store is connected at
the same path and the table holds the upserted row on top of the prior
table. -/
theorem save_ok_inv (creatable : String → Bool) (fs fs1 : FS) (s s1 : DBTaskStore)
    (t : Task) (hsave : DBTaskStore.save creatable fs s t = .ok (fs1, s1)) :
    s1 = { s with conn_open := true } ∧
    tableAt fs1 s1.db_path = KV.upsert t.id (Task.json t) (tableAt fs s.db_path) := by
  unfold DBTaskStore.save at hsave
  cases hc : DBTaskStore.connect creatable fs s with
  | error e => rw [hc] at hsave; cases hsave
  | ok p =>
    obtain ⟨fs0, s0⟩ := p
    rw [hc] at hsave
    obtain ⟨hs0, htbl⟩ := connect_ok_inv creatable fs fs0 s s0 hc
    injection hsave with hpair
    rw [Prod.mk.injEq] at hpair
    obtain ⟨hfs, hs⟩ := hpair
    subst hfs
    subst hs
    refine ⟨hs0, ?_⟩
    have hpath : s0.db_path = s.db_path := by rw [hs0]
    have htbl' : (KV.lookup s.db_path fs0).getD [] = (KV.lookup s.db_path fs).getD [] := htbl
    simp [tableAt, KV.lookup_upsert, hpath]
    rw [htbl']

end A2A

/-- Claim C1: for every id and payload, a successful `save(id, payload)`
followed by `get(id)` on the resulting store returns the saved payload
(round-trip fidelity), for payloads whose fields survive the wire format
(no embedded double quote). -/
theorem c1_save_then_get_roundtrip (creatable : String → Bool) (fs fs1 : A2A.FS)
    (s s1 : A2A.DBTaskStore) (t : A2A.Task)
    (hsave : A2A.DBTaskStore.save creatable fs s t = .ok (fs1, s1))
    (h1 : '"' ∉ t.id.data) (h2 : '"' ∉ t.status.data) :
    A2A.DBTaskStore.get creatable fs1 s1 t.id = .ok (fs1, s1, some t) :=
  A2A.get_after_save creatable fs fs1 s s1 t hsave h1 h2

/-- Witness for C1 at a concrete store and task. -/
theorem c1_roundtrip_witness :
    A2A.DBTaskStore.get (fun _ => true)
      [("db", [("t1", A2A.Task.json ⟨"t1", "pending"⟩)])] ⟨"db", true⟩ "t1"
      = .ok ([("db", [("t1", A2A.Task.json ⟨"t1", "pending"⟩)])],
             ⟨"db", true⟩, some ⟨"t1", "pending"⟩) :=
  c1_save_then_get_roundtrip (fun _ => true) [] [("db", [("t1", A2A.Task.json ⟨"t1", "pending"⟩)])]
    ⟨"db", false⟩ ⟨"db", true⟩ ⟨"t1", "pending"⟩ (by rfl) (by decide) (by decide)

/-- Claim C2: saving twice under the same id and then reading returns the
second payload, and the stored row is exactly the second serialized payload
(upsert, last-write-wins, one payload per id). -/
theorem c2_save_overwrite_last_write_wins (creatable : String → Bool)
    (fs fs1 fs2 : A2A.FS) (s s1 s2 : A2A.DBTaskStore) (t1 t2 : A2A.Task)
    (hid : t1.id = t2.id)
    (hsave1 : A2A.DBTaskStore.save creatable fs s t1 = .ok (fs1, s1))
    (hsave2 : A2A.DBTaskStore.save creatable fs1 s1 t2 = .ok (fs2, s2))
    (h1 : '"' ∉ t2.id.data) (h2 : '"' ∉ t2.status.data) :
    A2A.DBTaskStore.get creatable fs2 s2 t2.id = .ok (fs2, s2, some t2)
    ∧ A2A.KV.lookup t2.id (A2A.tableAt fs2 s2.db_path) = some (A2A.Task.json t2) := by
  refine ⟨A2A.get_after_save creatable fs1 fs2 s1 s2 t2 hsave2 h1 h2, ?_⟩
  obtain ⟨_, htbl⟩ := A2A.save_ok_inv creatable fs1 fs2 s1 s2 t2 hsave2
  rw [htbl, A2A.KV.lookup_upsert]
  simp

/-- Witness for C2 at a concrete store and pair of tasks with the same id. -/
theorem c2_overwrite_witness :
    A2A.DBTaskStore.get (fun _ => true)
      [("db", [("t1", A2A.Task.json ⟨"t1", "done"⟩)])] ⟨"db", true⟩ "t1"
      = .ok ([("db", [("t1", A2A.Task.json ⟨"t1", "done"⟩)])],
             ⟨"db", true⟩, some ⟨"t1", "done"⟩)
    ∧ A2A.KV.lookup "t1"
        (A2A.tableAt [("db", [("t1", A2A.Task.json ⟨"t1", "done"⟩)])] "db")
        = some (A2A.Task.json ⟨"t1", "done"⟩) :=
  c2_save_overwrite_last_write_wins (fun _ => true) []
    [("db", [("t1", A2A.Task.json ⟨"t1", "pending"⟩)])]
    [("db", [("t1", A2A.Task.json ⟨"t1", "done"⟩)])]
    ⟨"db", false⟩ ⟨"db", true⟩ ⟨"db", true⟩
    ⟨"t1", "pending"⟩ ⟨"t1", "done"⟩ (by rfl) (by rfl) (by rfl) (by decide) (by decide)

/-- Claim C3: when the connection can be established, `get` of an id with no
stored row returns the absence signal `none` and does not fail. -/
theorem c3_get_missing_id_none (creatable : String → Bool) (fs fs0 : A2A.FS)
    (s s0 : A2A.DBTaskStore) (task_id : String)
    (hconn : A2A.DBTaskStore.connect creatable fs s = .ok (fs0, s0))
    (hmiss : A2A.KV.lookup task_id (A2A.tableAt fs0 s.db_path) = none) :
    A2A.DBTaskStore.get creatable fs s task_id = .ok (fs0, s0, none) := by
  obtain ⟨hs0, _⟩ := A2A.connect_ok_inv creatable fs fs0 s s0 hconn
  have hpath : s0.db_path = s.db_path := by rw [hs0]
  simp only [A2A.DBTaskStore.get, hconn]
  simp [hpath, hmiss]

/-- Witness for C3 at a fresh store and an unsaved id. -/
theorem c3_missing_witness :
    A2A.DBTaskStore.get (fun _ => true) [] ⟨"db", false⟩ "nope"
      = .ok ([("db", [])], ⟨"db", true⟩, none) :=
  c3_get_missing_id_none (fun _ => true) [] [("db", [])] ⟨"db", false⟩ ⟨"db", true⟩
    "nope" (by rfl) (by rfl)

/-- Claim C4: a successful `delete(id)` followed by `get(id)` returns the
absence signal, whatever the prior contents of the store. -/
theorem c4_delete_then_get_none (creatable : String → Bool) (fs fs1 : A2A.FS)
    (s s1 : A2A.DBTaskStore) (task_id : String)
    (hdel : A2A.DBTaskStore.delete creatable fs s task_id = .ok (fs1, s1)) :
    A2A.DBTaskStore.get creatable fs1 s1 task_id = .ok (fs1, s1, none) := by
  unfold A2A.DBTaskStore.delete at hdel
  cases hc : A2A.DBTaskStore.connect creatable fs s with
  | error e => rw [hc] at hdel; cases hdel
  | ok p =>
    obtain ⟨fs0, s0⟩ := p
    rw [hc] at hdel
    obtain ⟨hs0, _⟩ := A2A.connect_ok_inv creatable fs fs0 s s0 hc
    have hopen : s0.conn_open = true := by rw [hs0]
    injection hdel with hpair
    rw [Prod.mk.injEq] at hpair
    obtain ⟨hfs, hs⟩ := hpair
    subst hfs
    subst hs
    unfold A2A.DBTaskStore.get
    rw [A2A.connect_of_open creatable _ s0 hopen]
    simp [A2A.tableAt, A2A.KV.lookup_upsert, A2A.KV.lookup_erase]

/-- Witness for C4: delete an existing row, then read it back as absent. -/
theorem c4_delete_witness :
    A2A.DBTaskStore.get (fun _ => true) [("db", [])] ⟨"db", true⟩ "t1"
      = .ok ([("db", [])], ⟨"db", true⟩, none) :=
  c4_delete_then_get_none (fun _ => true)
    [("db", [("t1", A2A.Task.json ⟨"t1", "pending"⟩)])] [("db", [])]
    ⟨"db", true⟩ ⟨"db", true⟩ "t1" (by rfl)

/-- Claim C5: when the connection can be established, `delete` of an id with
no stored row succeeds and leaves the lookup of every id over the table at
the store path unchanged. -/
theorem c5_delete_missing_noop (creatable : String → Bool) (fs fs0 : A2A.FS)
    (s s0 : A2A.DBTaskStore) (task_id : String)
    (hconn : A2A.DBTaskStore.connect creatable fs s = .ok (fs0, s0))
    (hmiss : A2A.KV.lookup task_id (A2A.tableAt fs0 s.db_path) = none) :
    ∃ fs1, A2A.DBTaskStore.delete creatable fs s task_id = .ok (fs1, s0)
      ∧ ∀ q, A2A.KV.lookup q (A2A.tableAt fs1 s.db_path)
          = A2A.KV.lookup q (A2A.tableAt fs0 s.db_path) := by
  obtain ⟨hs0, _⟩ := A2A.connect_ok_inv creatable fs fs0 s s0 hconn
  have hpath : s0.db_path = s.db_path := by rw [hs0]
  refine ⟨A2A.KV.upsert s0.db_path
      (A2A.KV.erase task_id (A2A.tableAt fs0 s0.db_path)) fs0, ?_, ?_⟩
  · simp only [A2A.DBTaskStore.delete, hconn]
  · intro q
    rw [hpath, A2A.KV.erase_of_lookup_none task_id _ hmiss]
    simp [A2A.tableAt, A2A.KV.lookup_upsert]

/-- Witness for C5: delete of an absent id on a store with one other row. -/
theorem c5_delete_missing_witness :
    ∃ fs1, A2A.DBTaskStore.delete (fun _ => true)
        [("db", [("t1", "r1")])] ⟨"db", true⟩ "nope" = .ok (fs1, ⟨"db", true⟩)
      ∧ ∀ q, A2A.KV.lookup q (A2A.tableAt fs1 "db")
          = A2A.KV.lookup q (A2A.tableAt [("db", [("t1", "r1")])] "db") :=
  c5_delete_missing_noop (fun _ => true) [("db", [("t1", "r1")])] [("db", [("t1", "r1")])]
    ⟨"db", true⟩ ⟨"db", true⟩ "nope" (by rfl) (by rfl)

/-- Claim C6: `close` is idempotent, and every operation invoked after
`close` transparently reopens the store (given an openable location: the
database file exists or the path is creatable) instead of failing because
the store was closed; `get` in particular can never report the store
unavailable there. -/
theorem c6_close_idempotent_reopen (creatable : String → Bool) (fs : A2A.FS)
    (s : A2A.DBTaskStore) (task_id : String) (t : A2A.Task)
    (h : (A2A.KV.lookup s.db_path fs).isSome = true ∨ creatable s.db_path = true) :
    A2A.DBTaskStore.close (A2A.DBTaskStore.close s) = A2A.DBTaskStore.close s
    ∧ (∃ r, A2A.DBTaskStore.save creatable fs (A2A.DBTaskStore.close s) t = .ok r)
    ∧ (∃ r, A2A.DBTaskStore.delete creatable fs (A2A.DBTaskStore.close s) task_id = .ok r)
    ∧ A2A.DBTaskStore.get creatable fs (A2A.DBTaskStore.close s) task_id
        ≠ .error .storeUnavailable := by
  have hcc : A2A.DBTaskStore.close (A2A.DBTaskStore.close s) = A2A.DBTaskStore.close s := by
    unfold A2A.DBTaskStore.close
    by_cases hco : s.conn_open = true <;> simp [hco]
  have hconn : ∃ fs' s', A2A.DBTaskStore.connect creatable fs (A2A.DBTaskStore.close s)
      = .ok (fs', s') := by
    unfold A2A.DBTaskStore.connect
    rw [A2A.close_conn_open, A2A.close_db_path]
    cases hlk : A2A.KV.lookup s.db_path fs with
    | some tbl =>
      refine ⟨fs, { db_path := s.db_path, conn_open := true }, ?_⟩
      simp [hlk]
    | none =>
      have hcr : creatable s.db_path = true := by
        rcases h with h | h
        · rw [hlk] at h; cases h
        · exact h
      refine ⟨A2A.KV.upsert s.db_path ([] : A2A.Table) fs,
        { db_path := s.db_path, conn_open := true }, ?_⟩
      simp [hlk, hcr]
  obtain ⟨fs', s', hconn⟩ := hconn
  refine ⟨hcc, ?_, ?_, ?_⟩
  · refine ⟨(A2A.KV.upsert s'.db_path
      (A2A.KV.upsert t.id (A2A.Task.json t) (A2A.tableAt fs' s'.db_path)) fs', s'), ?_⟩
    simp only [A2A.DBTaskStore.save, hconn]
  · refine ⟨(A2A.KV.upsert s'.db_path
      (A2A.KV.erase task_id (A2A.tableAt fs' s'.db_path)) fs', s'), ?_⟩
    simp only [A2A.DBTaskStore.delete, hconn]
  · simp only [A2A.DBTaskStore.get, hconn]
    cases hlk2 : A2A.KV.lookup task_id (A2A.tableAt fs' s'.db_path) with
    | none => simp [hlk2]
    | some raw =>
      cases hp : A2A.Task.parse_raw raw with
      | some t' => simp [hlk2, hp]
      | none => simp [hlk2, hp]

/-- Witness for C6 at a concrete open store over an existing file. -/
theorem c6_reopen_witness :
    A2A.DBTaskStore.close (A2A.DBTaskStore.close ⟨"db", true⟩)
      = A2A.DBTaskStore.close ⟨"db", true⟩
    ∧ (∃ r, A2A.DBTaskStore.save (fun _ => true) [("db", [])]
        (A2A.DBTaskStore.close ⟨"db", true⟩) ⟨"t1", "pending"⟩ = .ok r)
    ∧ (∃ r, A2A.DBTaskStore.delete (fun _ => true) [("db", [])]
        (A2A.DBTaskStore.close ⟨"db", true⟩) "t1" = .ok r)
    ∧ A2A.DBTaskStore.get (fun _ => true) [("db", [])]
        (A2A.DBTaskStore.close ⟨"db", true⟩) "t1" ≠ .error .storeUnavailable :=
  c6_close_idempotent_reopen (fun _ => true) [("db", [])] ⟨"db", true⟩ "t1"
    ⟨"t1", "pending"⟩ (Or.inl (by rfl))

/-- Claim C7: records are durable across `close` and reconnect: whatever
sequence of operations stored the serialized payload of `t` under its id in
the database file, after `close` a `get` of that id reopens the store at
the same path and returns `t`. -/
theorem c7_durable_across_close (creatable : String → Bool) (fs : A2A.FS)
    (s : A2A.DBTaskStore) (t : A2A.Task) (tbl : A2A.Table)
    (hfile : A2A.KV.lookup s.db_path fs = some tbl)
    (hrow : A2A.KV.lookup t.id tbl = some (A2A.Task.json t))
    (h1 : '"' ∉ t.id.data) (h2 : '"' ∉ t.status.data) :
    A2A.DBTaskStore.get creatable fs (A2A.DBTaskStore.close s) t.id
      = .ok (fs, ⟨s.db_path, true⟩, some t) := by
  obtain ⟨pth, co⟩ := s
  have hclose : A2A.DBTaskStore.close ⟨pth, co⟩ = ⟨pth, false⟩ := by
    cases co <;> simp [A2A.DBTaskStore.close]
  rw [hclose]
  have hconn : A2A.DBTaskStore.connect creatable fs ⟨pth, false⟩
      = .ok (fs, ⟨pth, true⟩) := by
    unfold A2A.DBTaskStore.connect
    simp only at hfile
    simp [hfile]
  simp only [A2A.DBTaskStore.get, hconn]
  simp only at hfile hrow
  simp [A2A.tableAt, hfile, hrow, A2A.parse_raw_json t h1 h2]

/-- Witness for C7: a saved row survives close and reconnect. -/
theorem c7_durability_witness :
    A2A.DBTaskStore.get (fun _ => false)
      [("db", [("t1", A2A.Task.json ⟨"t1", "pending"⟩)])]
      (A2A.DBTaskStore.close ⟨"db", true⟩) "t1"
      = .ok ([("db", [("t1", A2A.Task.json ⟨"t1", "pending"⟩)])],
             ⟨"db", true⟩, some ⟨"t1", "pending"⟩) :=
  c7_durable_across_close (fun _ => false)
    [("db", [("t1", A2A.Task.json ⟨"t1", "pending"⟩)])] ⟨"db", true⟩
    ⟨"t1", "pending"⟩ [("t1", A2A.Task.json ⟨"t1", "pending"⟩)]
    (by rfl) (by rfl) (by decide) (by decide)

/-- Claim C8: when the stored payload under an id cannot be parsed back
into a task, `get` of that id fails with the deserialization error instead
of returning data. -/
theorem c8_malformed_payload_error (creatable : String → Bool) (fs fs0 : A2A.FS)
    (s s0 : A2A.DBTaskStore) (task_id raw : String)
    (hconn : A2A.DBTaskStore.connect creatable fs s = .ok (fs0, s0))
    (hrow : A2A.KV.lookup task_id (A2A.tableAt fs0 s.db_path) = some raw)
    (hbad : A2A.Task.parse_raw raw = none) :
    A2A.DBTaskStore.get creatable fs s task_id = .error .deserializationError := by
  obtain ⟨hs0, _⟩ := A2A.connect_ok_inv creatable fs fs0 s s0 hconn
  have hpath : s0.db_path = s.db_path := by rw [hs0]
  simp only [A2A.DBTaskStore.get, hconn]
  simp [hpath, hrow, hbad]

/-- Witness for C8 on a store holding a garbage payload. -/
theorem c8_malformed_witness :
    A2A.DBTaskStore.get (fun _ => true) [("db", [("t1", "garbage")])]
      ⟨"db", true⟩ "t1" = .error .deserializationError :=
  c8_malformed_payload_error (fun _ => true) [("db", [("t1", "garbage")])]
    [("db", [("t1", "garbage")])] ⟨"db", true⟩ ⟨"db", true⟩ "t1" "garbage"
    (by rfl) (by rfl) (by rfl)

/-- Claim C9: at a location with no database file that is not creatable,
opening the store fails with `storeUnavailable`, both explicitly through
`connect` and implicitly through each of `save`, `get` and `delete`. -/
theorem c9_unavailable_location (creatable : String → Bool) (fs : A2A.FS)
    (s : A2A.DBTaskStore) (task_id : String) (t : A2A.Task)
    (h1 : s.conn_open = false)
    (h2 : A2A.KV.lookup s.db_path fs = none)
    (h3 : creatable s.db_path = false) :
    A2A.DBTaskStore.connect creatable fs s = .error .storeUnavailable
    ∧ A2A.DBTaskStore.save creatable fs s t = .error .storeUnavailable
    ∧ A2A.DBTaskStore.get creatable fs s task_id = .error .storeUnavailable
    ∧ A2A.DBTaskStore.delete creatable fs s task_id = .error .storeUnavailable := by
  have hc : A2A.DBTaskStore.connect creatable fs s = .error .storeUnavailable := by
    unfold A2A.DBTaskStore.connect
    simp [h1, h2, h3]
  exact ⟨hc, by simp only [A2A.DBTaskStore.save, hc],
    by simp only [A2A.DBTaskStore.get, hc],
    by simp only [A2A.DBTaskStore.delete, hc]⟩

/-- Witness for C9 at a concrete uncreatable location. -/
theorem c9_unavailable_witness :
    A2A.DBTaskStore.connect (fun _ => false) [] ⟨"bad/db", false⟩
      = .error .storeUnavailable
    ∧ A2A.DBTaskStore.save (fun _ => false) [] ⟨"bad/db", false⟩ ⟨"t1", "pending"⟩
      = .error .storeUnavailable
    ∧ A2A.DBTaskStore.get (fun _ => false) [] ⟨"bad/db", false⟩ "t1"
      = .error .storeUnavailable
    ∧ A2A.DBTaskStore.delete (fun _ => false) [] ⟨"bad/db", false⟩ "t1"
      = .error .storeUnavailable :=
  c9_unavailable_location (fun _ => false) [] ⟨"bad/db", false⟩ "t1" ⟨"t1", "pending"⟩
    (by rfl) (by rfl) (by rfl)

/-- Claim C10: an out-of-range latitude or longitude makes `get_forecast`
return exactly the invalid-coordinates message with no outbound request,
and on a successful well-formed response it renders exactly the first at
most five forecast periods. -/
theorem c10_forecast_validation_take5 (env : A2A.NWSEnv) (lat lon : ℚ) :
    ((lat < -90 ∨ 90 < lat ∨ lon < -180 ∨ 180 < lon) →
      A2A.get_forecast env lat lon = ("Invalid latitude or longitude provided.", []))
    ∧ (∀ (url : String) (periods : List A2A.ForecastPeriod),
        -90 ≤ lat → lat ≤ 90 → -180 ≤ lon → lon ≤ 180 →
        env.points (A2A.point_endpoint lat lon) = .ok ⟨some url⟩ →
        url ≠ "" →
        env.forecast url = .ok ⟨periods⟩ →
        periods ≠ [] →
        (A2A.get_forecast env lat lon).1 =
          String.intercalate "\n---\n" ((periods.take 5).map A2A.format_forecast_period)
        ∧ ((periods.take 5).map A2A.format_forecast_period).length ≤ 5) := by
  constructor
  · intro hout
    have hn : ¬(-90 ≤ lat ∧ lat ≤ 90 ∧ -180 ≤ lon ∧ lon ≤ 180) := by
      rintro ⟨ha, hb, hc, hd⟩
      rcases hout with h | h | h | h <;> linarith
    unfold A2A.get_forecast
    rw [if_pos hn]
  · intro url periods ha hb hc hd hpoints hurl hforecast hne
    unfold A2A.get_forecast
    rw [if_neg (not_not_intro ⟨ha, hb, hc, hd⟩)]
    simp only [hpoints]
    rw [if_neg hurl]
    simp only [hforecast]
    rw [if_neg hne]
    exact ⟨rfl, by simp⟩

/-- One period dictionary with every key absent, for the C10 witness. -/
def perW : A2A.ForecastPeriod := ⟨none, none, none, none, none, none, none⟩

/-- Six periods, one more than the tool may render, for the C10 witness. -/
def periodsW : List A2A.ForecastPeriod := List.replicate 6 perW

/-- HTTP oracle for the C10 witness: both requests succeed. -/
def envW : A2A.NWSEnv :=
  { points := fun _ => .ok ⟨some "u"⟩, forecast := fun _ => .ok ⟨periodsW⟩ }

/-- Witness for C10: rejection at latitude 100, and rendering of exactly
five of the six periods at a valid coordinate. -/
theorem c10_forecast_witness :
    A2A.get_forecast envW 100 0 = ("Invalid latitude or longitude provided.", [])
    ∧ (A2A.get_forecast envW 10 20).1 =
        String.intercalate "\n---\n"
          ((periodsW.take 5).map A2A.format_forecast_period) :=
  ⟨(c10_forecast_validation_take5 envW 100 0).1 (Or.inr (Or.inl (by norm_num))),
   ((c10_forecast_validation_take5 envW 10 20).2 "u" periodsW
      (by norm_num) (by norm_num) (by norm_num) (by norm_num)
      rfl (by decide) rfl (by decide)).1⟩
